import Mathlib

/-!
Shallow embedding of the FastMission batch ingestion pipeline.

The backend pipeline is given in
`backend/app/repositories/plan-mvpSaneamentoCadastral.prompt.prompt.md`:
the SQLAlchemy models (`Lote`, `ItemCadastral`), the FastAPI routes
(`upload_csv`, `get_status`, `listar_itens`), the Celery worker task
(`processar_lote_task`, `chamar_ai_script`) and the classifier script
(`validar_ncm`).  The frontend statistics fetcher `getStats` is in
`frontend/src/services/api.js`.
-/

namespace FastMission

/-- Batch status enum from `models.py`: `Enum("PENDENTE", "PROCESSANDO",
"CONCLUIDO", "ERRO")`.  These are the only four batch states in the code. -/
inductive StatusLote where
  | PENDENTE
  | PROCESSANDO
  | CONCLUIDO
  | ERRO
deriving DecidableEq, Repr

/-- Record validation status enum from `models.py`:
`Enum("PENDENTE", "VALIDO", "DIVERGENTE")`.  These are the only three
per-record states in the code. -/
inductive StatusValidacao where
  | PENDENTE
  | VALIDO
  | DIVERGENTE
deriving DecidableEq, Repr

/-- One row of the `item_cadastral` table (`models.py`, `ItemCadastral`).
`ncm_original` is a string column; `confianca_ai` is modelled as a rational
(the source stores a numeric score in the range 0-100). -/
structure ItemCadastral where
  descricao : String
  ncm_original : String
  ncm_sugerido : Option String
  status_validacao : StatusValidacao
  motivo_divergencia : Option String
  confianca_ai : Option ℚ
deriving DecidableEq, Repr

/-- One row of the `lote` table (`models.py`, `Lote`), together with its
owned items (the 1-to-many relationship). -/
structure Lote where
  arquivo_nome : String
  status : StatusLote
  total_itens : Nat
  itens : List ItemCadastral
deriving DecidableEq, Repr

/-- The raw JSON object produced by the LLM inside
`skills/validate_ncm.py` (keys `correto`, `ncm_sugerido`, `explicacao`,
`confianca`). -/
structure RespostaAI where
  correto : Bool
  ncm_sugerido : String
  explicacao : String
  confianca : ℚ
deriving DecidableEq, Repr

/-- The JSON object printed on stdout by `skills/validate_ncm.py`
(keys `ncm_sugerido`, `status`, `explicacao`, `confianca`). -/
structure Resultado where
  ncm_sugerido : String
  status : StatusValidacao
  explicacao : String
  confianca : ℚ
deriving DecidableEq, Repr

/-- The post-processing branch of `validar_ncm` in
`skills/validate_ncm.py`: if the LLM says the classification is correct the
script answers VALIDO keeping the original NCM with the fixed confirmation
note, otherwise DIVERGENTE with the LLM suggestion and explanation. -/
def validar_ncm (ncm_original : String) (resposta_ai : RespostaAI) : Resultado :=
  if resposta_ai.correto then
    { ncm_sugerido := ncm_original
      status := StatusValidacao.VALIDO
      explicacao := "Classificação correta segundo Merceologia"
      confianca := resposta_ai.confianca }
  else
    { ncm_sugerido := resposta_ai.ncm_sugerido
      status := StatusValidacao.DIVERGENTE
      explicacao := resposta_ai.explicacao
      confianca := resposta_ai.confianca }

/-- `chamar_ai_script` in `tasks.py`: runs `skills/validate_ncm.py` in a
subprocess and parses its stdout.  The LLM call plus JSON round trip is
modelled by an oracle `llm`; `none` models any raised exception along the
way (subprocess failure, unparseable output, unreachable LLM).  When the
script runs, its output is exactly `validar_ncm` applied to the LLM
response. -/
def chamar_ai_script (llm : String → String → Option RespostaAI)
    (descricao ncm : String) : Option Resultado :=
  (llm descricao ncm).map (validar_ncm ncm)

/-- The configuration of the `subprocess.run` invocation made by
`chamar_ai_script` in `tasks.py`.  The source passes `input`,
`capture_output=True`, `text=True` and nothing else: in particular no
`timeout` argument, so the field is `none`. -/
structure SubprocessCall where
  cmd : List String
  entrada : List (String × String)
  capture_output : Bool
  text : Bool
  timeout : Option ℚ
deriving DecidableEq, Repr

/-- The subprocess invocation built by `chamar_ai_script` in `tasks.py` for
one record: `subprocess.run(["python", "skills/validate_ncm.py"],
input=entrada, capture_output=True, text=True)` with
`entrada = json.dumps({"descricao": descricao, "ncm": ncm})`. -/
def chamar_ai_script_call (descricao ncm : String) : SubprocessCall :=
  { cmd := ["python", "skills/validate_ncm.py"]
    entrada := [("descricao", descricao), ("ncm", ncm)]
    capture_output := true
    text := true
    timeout := none }

/-- The per-item update of `processar_lote_task` (`tasks.py`): copies the
four result fields of the parsed script output onto the item row. -/
def aplicarResultado (item : ItemCadastral) (r : Resultado) : ItemCadastral :=
  { item with
      ncm_sugerido := some r.ncm_sugerido
      status_validacao := r.status
      motivo_divergencia := some r.explicacao
      confianca_ai := some r.confianca }

/-- The item loop of `processar_lote_task`: the SQL query selects only
items with `status_validacao == "PENDENTE"`, so non-pending items are
skipped untouched; each selected item is sent to `chamar_ai_script` and
its result committed.  An exception from `chamar_ai_script` (oracle
`none`) escapes the loop: the failing item and every later item are left
as they are and the boolean component is `false` (the outer `except`
branch of the task fires).  `true` means the loop ran to completion. -/
def processarItens (ai : String → String → Option Resultado) :
    List ItemCadastral → List ItemCadastral × Bool
  | [] => ([], true)
  | item :: resto =>
    if item.status_validacao = StatusValidacao.PENDENTE then
      match ai item.descricao item.ncm_original with
      | some r =>
        (aplicarResultado item r :: (processarItens ai resto).1,
         (processarItens ai resto).2)
      | none => (item :: resto, false)
    else
      (item :: (processarItens ai resto).1, (processarItens ai resto).2)

/-- The Celery task `processar_lote_task` in `tasks.py`: commit
`status = "PROCESSANDO"`, loop over the pending items, then commit
`status = "CONCLUIDO"`; any exception is caught by the task-level
`except` which commits `status = "ERRO"` instead.  The result is the
batch row as finally committed. -/
def processar_lote_task (llm : String → String → Option RespostaAI)
    (lote : Lote) : Lote :=
  let emProcesso := { lote with status := StatusLote.PROCESSANDO }
  let res := processarItens (chamar_ai_script llm) emProcesso.itens
  if res.2 then
    { emProcesso with status := StatusLote.CONCLUIDO, itens := res.1 }
  else
    { emProcesso with status := StatusLote.ERRO, itens := res.1 }

/-- The sequence of batch statuses committed to the database during one
run of `processar_lote_task`: first `PROCESSANDO`, then the final status. -/
def processar_lote_statusTrace (llm : String → String → Option RespostaAI)
    (lote : Lote) : List StatusLote :=
  [StatusLote.PROCESSANDO, (processar_lote_task llm lote).status]

/-- The indices (positions in the item list) on which one run of the loop
of `processar_lote_task` invokes the classifier, counting from `k`.  A
failing invocation still counts as one invocation on its index and stops
the loop. -/
def indicesValidados (ai : String → String → Option Resultado) :
    Nat → List ItemCadastral → List Nat
  | _, [] => []
  | k, item :: resto =>
    if item.status_validacao = StatusValidacao.PENDENTE then
      match ai item.descricao item.ncm_original with
      | some _ => k :: indicesValidados ai (k + 1) resto
      | none => [k]
    else indicesValidados ai (k + 1) resto

/-- `itens_processados` in the `get_status` route (`routes.py`): count of
items of the batch whose `status_validacao` differs from `"PENDENTE"`. -/
def itensProcessados (lote : Lote) : Nat :=
  (lote.itens.filter
    (fun it => decide (it.status_validacao ≠ StatusValidacao.PENDENTE))).length

/-- The JSON body returned by the `get_status` route. -/
structure StatusResponse where
  status : StatusLote
  progresso : ℚ
  total_itens : Nat
  itens_processados : Nat
deriving DecidableEq, Repr

/-- The `get_status` route (`routes.py`): computes
`progresso = (itens_processados / lote.total_itens) * 100` with Python
true division.  When `total_itens = 0` the division raises
`ZeroDivisionError` and the request fails, modelled by `none`. -/
def get_status (lote : Lote) : Option StatusResponse :=
  if lote.total_itens = 0 then none
  else
    some { status := lote.status
           progresso :=
             (itensProcessados lote : ℚ) / (lote.total_itens : ℚ) * 100
           total_itens := lote.total_itens
           itens_processados := itensProcessados lote }

/-- The `listar_itens` route (`routes.py`): returns the batch items,
filtered to `status_validacao == "DIVERGENTE"` when
`apenas_divergentes` is set. -/
def listar_itens (lote : Lote) (apenas_divergentes : Bool) :
    List ItemCadastral :=
  if apenas_divergentes then
    lote.itens.filter
      (fun it => decide (it.status_validacao = StatusValidacao.DIVERGENTE))
  else lote.itens

/-- One parsed CSV line as consumed by `upload_csv` (`routes.py`):
columns `descricao` and `ncm`. -/
structure Linha where
  descricao : String
  ncm : String
deriving DecidableEq, Repr

/-- The item row created by `upload_csv` for one CSV line: description and
NCM copied verbatim, `status_validacao = "PENDENTE"`, result fields null. -/
def novoItem (l : Linha) : ItemCadastral :=
  { descricao := l.descricao
    ncm_original := l.ncm
    ncm_sugerido := none
    status_validacao := StatusValidacao.PENDENTE
    motivo_divergencia := none
    confianca_ai := none }

/-- The batch row created by `upload_csv` before the items are inserted:
`status = "PENDENTE"`, `total_itens = len(linhas)`, no items yet. -/
def novoLote (filename : String) (linhas : List Linha) : Lote :=
  { arquivo_nome := filename
    status := StatusLote.PENDENTE
    total_itens := linhas.length
    itens := [] }

/-- The batch row as it stands after the second commit of `upload_csv`:
the batch together with all of its items in state PENDENTE. -/
def criarLote (filename : String) (linhas : List Linha) : Lote :=
  { novoLote filename linhas with itens := linhas.map novoItem }

/-- Externally visible effects of `upload_csv`: a database commit making a
batch state durable, or the Celery `processar_lote_task.delay` enqueue,
paired with the durable batch state at that moment. -/
inductive Evento where
  | commit (db : Lote)
  | enqueue (db : Lote)
deriving DecidableEq, Repr

/-- Recogniser for enqueue events. -/
def isEnqueue : Evento → Bool
  | Evento.enqueue _ => true
  | Evento.commit _ => false

/-- The effect trace of `upload_csv` (`routes.py`) on an accepted
submission: commit the batch row, commit the item rows, then call
`processar_lote_task.delay(lote.id)` exactly once. -/
def upload_csv (filename : String) (linhas : List Linha) : List Evento :=
  [Evento.commit (novoLote filename linhas),
   Evento.commit (criarLote filename linhas),
   Evento.enqueue (criarLote filename linhas)]

/-- The dashboard statistics object returned by `/stats` as consumed by
the frontend (`services/api.js`). -/
structure Stats where
  totalLotes : Nat
  totalItens : Nat
  lotesPendentes : Nat
  lotesConcluidos : Nat
  divergencias : Nat
  beneficios : Nat
  economia : ℚ
deriving DecidableEq, Repr

/-- The all-zero statistics object hard-coded in the `catch` branch of
`getStats` in `frontend/src/services/api.js`. -/
def statsZero : Stats :=
  { totalLotes := 0
    totalItens := 0
    lotesPendentes := 0
    lotesConcluidos := 0
    divergencias := 0
    beneficios := 0
    economia := 0 }

/-- `getStats` in `frontend/src/services/api.js`: on a successful response
it returns the response data; on any error it logs and returns the mock
all-zero object instead of rethrowing. -/
def getStats (resposta : Except String Stats) : Stats :=
  match resposta with
  | Except.ok dados => dados
  | Except.error _ => statsZero

/-! Concrete fixtures used by counterexamples and witnesses. -/

/-- A fixed LLM response confirming the original classification. -/
def respostaCorreta : RespostaAI :=
  { correto := true
    ncm_sugerido := "9999.99.99"
    explicacao := "ok"
    confianca := 90 }

/-- A fixed LLM response rejecting the original classification. -/
def respostaErrada : RespostaAI :=
  { correto := false
    ncm_sugerido := "1806.32.00"
    explicacao := "Produto descrito como chocolate mas NCM aponta para wafer"
    confianca := 85 }

/-- An LLM oracle that confirms every record. -/
def llmConfirma : String → String → Option RespostaAI :=
  fun _ _ => some respostaCorreta

/-- An LLM oracle whose every invocation raises (subprocess failure). -/
def llmFalha : String → String → Option RespostaAI :=
  fun _ _ => none

/-- An LLM oracle that succeeds on the record described "A" and raises on
every other record. -/
def llmParcial : String → String → Option RespostaAI :=
  fun descricao _ =>
    if descricao = "A" then some respostaCorreta else none

/-- A freshly created pending item. -/
def itemPendente (d n : String) : ItemCadastral := novoItem ⟨d, n⟩

/-- An item already validated in a previous run. -/
def itemValido : ItemCadastral :=
  { descricao := "F"
    ncm_original := "1101.00.10"
    ncm_sugerido := some "1101.00.10"
    status_validacao := StatusValidacao.VALIDO
    motivo_divergencia := some "Classificação correta segundo Merceologia"
    confianca_ai := some 90 }

/-- A two-item batch with both records pending. -/
def loteDois : Lote :=
  { arquivo_nome := "produtos.csv"
    status := StatusLote.PENDENTE
    total_itens := 2
    itens := [itemPendente "A" "1806.31.00", itemPendente "B" "1905.90.00"] }

/-- A batch already in the terminal state ERRO that still has one pending
item (the situation left behind by a failed run). -/
def loteEmErro : Lote :=
  { arquivo_nome := "produtos.csv"
    status := StatusLote.ERRO
    total_itens := 1
    itens := [itemPendente "P" "7318.15.00"] }

/-- A degenerate batch with zero rows. -/
def loteVazio : Lote :=
  { arquivo_nome := "vazio.csv"
    status := StatusLote.PENDENTE
    total_itens := 0
    itens := [] }

/-- A three-item batch with exactly one item already processed. -/
def loteUmDeTres : Lote :=
  { arquivo_nome := "t.csv"
    status := StatusLote.PROCESSANDO
    total_itens := 3
    itens := [itemValido, itemPendente "A" "1", itemPendente "B" "2"] }

/-- A batch holding one already-terminal item and one pending item. -/
def loteMisto : Lote :=
  { arquivo_nome := "m.csv"
    status := StatusLote.PROCESSANDO
    total_itens := 2
    itens := [itemValido, itemPendente "B" "1905.90.00"] }

/-! Basic lemmas about the embedded operations. -/

/-- The classifier script never answers PENDENTE: its two branches produce
VALIDO and DIVERGENTE. -/
theorem validar_ncm_status (ncm : String) (r : RespostaAI) :
    (validar_ncm ncm r).status ≠ StatusValidacao.PENDENTE := by
  cases hr : r.correto <;> simp [validar_ncm, hr]

/-- Inversion for a successful `chamar_ai_script` call: the parsed result
is the script output on some LLM response. -/
theorem chamar_ai_script_some (llm : String → String → Option RespostaAI)
    (d n : String) (r : Resultado)
    (h : chamar_ai_script llm d n = some r) :
    ∃ resp, llm d n = some resp ∧ r = validar_ncm n resp := by
  cases hll : llm d n with
  | some resp =>
    refine ⟨resp, rfl, ?_⟩
    simp [chamar_ai_script, hll] at h
    exact h.symm
  | none => simp [chamar_ai_script, hll] at h

/-- A successfully parsed script result carries a terminal status. -/
theorem chamar_ai_script_status (llm : String → String → Option RespostaAI)
    (d n : String) (r : Resultado)
    (h : chamar_ai_script llm d n = some r) :
    r.status ≠ StatusValidacao.PENDENTE := by
  obtain ⟨resp, _, rfl⟩ := chamar_ai_script_some llm d n r h
  exact validar_ncm_status n resp

/-- The item rows committed by the task are the output of the item loop,
whether the run concluded or erred. -/
theorem processar_lote_task_itens (llm : String → String → Option RespostaAI)
    (lote : Lote) :
    (processar_lote_task llm lote).itens
      = (processarItens (chamar_ai_script llm) lote.itens).1 := by
  unfold processar_lote_task
  cases h : (processarItens (chamar_ai_script llm) lote.itens).2 <;> simp [h]

/-- An item that is already terminal is left untouched at its position by
the item loop. -/
theorem processarItens_preserva_terminais
    (ai : String → String → Option Resultado) :
    ∀ (itens : List ItemCadastral) (i : Nat) (item : ItemCadastral),
      itens[i]? = some item →
      item.status_validacao ≠ StatusValidacao.PENDENTE →
      (processarItens ai itens).1[i]? = some item := by
  intro itens
  induction itens with
  | nil => intro i item h _; simp at h
  | cons hd resto ih =>
    intro i item h hterm
    by_cases hp : hd.status_validacao = StatusValidacao.PENDENTE
    · cases hai : ai hd.descricao hd.ncm_original with
      | some r =>
        cases i with
        | zero =>
          simp at h
          subst h
          exact absurd hp hterm
        | succ j =>
          simp at h
          simpa [processarItens, hp, hai] using ih j item h hterm
      | none => simpa [processarItens, hp, hai] using h
    · cases i with
      | zero =>
        simp at h
        subst h
        simp [processarItens, hp]
      | succ j =>
        simp at h
        simpa [processarItens, hp] using ih j item h hterm

/-- The item loop never changes an item's `ncm_original` column. -/
theorem processarItens_preserva_ncm (ai : String → String → Option Resultado) :
    ∀ (itens : List ItemCadastral) (i : Nat),
      ((processarItens ai itens).1[i]?).map ItemCadastral.ncm_original
        = (itens[i]?).map ItemCadastral.ncm_original := by
  intro itens
  induction itens with
  | nil => intro i; simp [processarItens]
  | cons hd resto ih =>
    intro i
    by_cases hp : hd.status_validacao = StatusValidacao.PENDENTE
    · cases hai : ai hd.descricao hd.ncm_original with
      | some r =>
        cases i with
        | zero => simp [processarItens, hp, hai, aplicarResultado]
        | succ j => simpa [processarItens, hp, hai] using ih j
      | none => simp [processarItens, hp, hai]
    · cases i with
      | zero => simp [processarItens, hp]
      | succ j => simpa [processarItens, hp] using ih j

/-- When the item loop ran to completion through the classifier script,
every item of its output is terminal. -/
theorem processarItens_true_terminais
    (llm : String → String → Option RespostaAI) :
    ∀ (itens : List ItemCadastral),
      (processarItens (chamar_ai_script llm) itens).2 = true →
      ∀ item ∈ (processarItens (chamar_ai_script llm) itens).1,
        item.status_validacao ≠ StatusValidacao.PENDENTE := by
  intro itens
  induction itens with
  | nil => intro _ item hmem; simp [processarItens] at hmem
  | cons hd resto ih =>
    intro hok item hmem
    by_cases hp : hd.status_validacao = StatusValidacao.PENDENTE
    · cases hai : chamar_ai_script llm hd.descricao hd.ncm_original with
      | some r =>
        have hok2 : (processarItens (chamar_ai_script llm) resto).2 = true := by
          simpa [processarItens, hp, hai] using hok
        simp [processarItens, hp, hai] at hmem
        rcases hmem with rfl | hmem
        · simpa [aplicarResultado] using
            chamar_ai_script_status llm hd.descricao hd.ncm_original r hai
        · exact ih hok2 item hmem
      | none => simp [processarItens, hp, hai] at hok
    · have hok2 : (processarItens (chamar_ai_script llm) resto).2 = true := by
        simpa [processarItens, hp] using hok
      simp [processarItens, hp] at hmem
      rcases hmem with rfl | hmem
      · exact hp
      · exact ih hok2 item hmem

/-- On a list with no pending item the item loop is the identity and
reports success. -/
theorem processarItens_terminais_id (ai : String → String → Option Resultado) :
    ∀ (itens : List ItemCadastral),
      (∀ item ∈ itens, item.status_validacao ≠ StatusValidacao.PENDENTE) →
      processarItens ai itens = (itens, true) := by
  intro itens
  induction itens with
  | nil => intro _; rfl
  | cons hd resto ih =>
    intro h
    have hp : hd.status_validacao ≠ StatusValidacao.PENDENTE := h hd (by simp)
    have hresto := ih (fun it hit => h it (by simp [hit]))
    simp [processarItens, hp, hresto]

/-- A run of the item loop that ended in the task-level `except` branch
leaves some item pending. -/
theorem processarItens_false_pendente (ai : String → String → Option Resultado)
    (itens : List ItemCadastral)
    (h : (processarItens ai itens).2 = false) :
    ∃ item ∈ (processarItens ai itens).1,
      item.status_validacao = StatusValidacao.PENDENTE := by
  induction itens with
  | nil => simp [processarItens] at h
  | cons hd resto ih =>
    by_cases hp : hd.status_validacao = StatusValidacao.PENDENTE
    · cases hai : ai hd.descricao hd.ncm_original with
      | some r =>
        have h2 : (processarItens ai resto).2 = false := by
          simpa [processarItens, hp, hai] using h
        obtain ⟨it, hmem, hpend⟩ := ih h2
        exact ⟨it, by simp [processarItens, hp, hai, hmem], hpend⟩
      | none => exact ⟨hd, by simp [processarItens, hp, hai], hp⟩
    · have h2 : (processarItens ai resto).2 = false := by
        simpa [processarItens, hp] using h
      obtain ⟨it, hmem, hpend⟩ := ih h2
      exact ⟨it, by simp [processarItens, hp, hmem], hpend⟩

/-- Every index on which the loop invokes the classifier is at least the
starting offset. -/
theorem indicesValidados_le (ai : String → String → Option Resultado) :
    ∀ (itens : List ItemCadastral) (k j : Nat),
      j ∈ indicesValidados ai k itens → k ≤ j := by
  intro itens
  induction itens with
  | nil => intro k j h; simp [indicesValidados] at h
  | cons hd resto ih =>
    intro k j h
    by_cases hp : hd.status_validacao = StatusValidacao.PENDENTE
    · cases hai : ai hd.descricao hd.ncm_original with
      | some r =>
        simp [indicesValidados, hp, hai] at h
        rcases h with rfl | h
        · exact le_rfl
        · have := ih (k + 1) j h
          omega
      | none =>
        simp [indicesValidados, hp, hai] at h
        omega
    · simp [indicesValidados, hp] at h
      have := ih (k + 1) j h
      omega

/-- The invocation indices of one loop run are strictly increasing. -/
theorem indicesValidados_pairwise (ai : String → String → Option Resultado) :
    ∀ (itens : List ItemCadastral) (k : Nat),
      (indicesValidados ai k itens).Pairwise (· < ·) := by
  intro itens
  induction itens with
  | nil => intro k; simp [indicesValidados]
  | cons hd resto ih =>
    intro k
    by_cases hp : hd.status_validacao = StatusValidacao.PENDENTE
    · cases hai : ai hd.descricao hd.ncm_original with
      | some r =>
        simp only [indicesValidados, hp, if_true, hai, List.pairwise_cons]
        refine ⟨fun j hj => ?_, ih (k + 1)⟩
        have := indicesValidados_le ai resto (k + 1) j hj
        omega
      | none => simp [indicesValidados, hp, hai]
    · simpa [indicesValidados, hp] using ih (k + 1)

/-- No index is invoked twice within one run of the item loop. -/
theorem indicesValidados_nodup (ai : String → String → Option Resultado)
    (itens : List ItemCadastral) (k : Nat) :
    (indicesValidados ai k itens).Nodup :=
  (indicesValidados_pairwise ai itens k).imp (fun h => Nat.ne_of_lt h)

/-- Every index the loop invokes the classifier on points at an item that
was pending at the start of the run. -/
theorem indicesValidados_pendente (ai : String → String → Option Resultado) :
    ∀ (itens : List ItemCadastral) (k j : Nat),
      j ∈ indicesValidados ai k itens →
      ∃ item, itens[j - k]? = some item
        ∧ item.status_validacao = StatusValidacao.PENDENTE := by
  intro itens
  induction itens with
  | nil => intro k j h; simp [indicesValidados] at h
  | cons hd resto ih =>
    intro k j h
    by_cases hp : hd.status_validacao = StatusValidacao.PENDENTE
    · cases hai : ai hd.descricao hd.ncm_original with
      | some r =>
        simp [indicesValidados, hp, hai] at h
        rcases h with rfl | h
        · exact ⟨hd, by simp, hp⟩
        · obtain ⟨it, hg, hpend⟩ := ih (k + 1) j h
          have hk : k + 1 ≤ j := indicesValidados_le ai resto (k + 1) j h
          refine ⟨it, ?_, hpend⟩
          have hjk : j - k = (j - (k + 1)) + 1 := by omega
          rw [hjk]
          simpa using hg
      | none =>
        simp [indicesValidados, hp, hai] at h
        subst h
        exact ⟨hd, by simp, hp⟩
    · simp [indicesValidados, hp] at h
      obtain ⟨it, hg, hpend⟩ := ih (k + 1) j h
      have hk : k + 1 ≤ j := indicesValidados_le ai resto (k + 1) j h
      refine ⟨it, ?_, hpend⟩
      have hjk : j - k = (j - (k + 1)) + 1 := by omega
      rw [hjk]
      simpa using hg

/-- On a list with no pending item the loop performs no classifier
invocation at all. -/
theorem indicesValidados_terminais (ai : String → String → Option Resultado) :
    ∀ (itens : List ItemCadastral) (k : Nat),
      (∀ item ∈ itens, item.status_validacao ≠ StatusValidacao.PENDENTE) →
      indicesValidados ai k itens = [] := by
  intro itens
  induction itens with
  | nil => intro k _; rfl
  | cons hd resto ih =>
    intro k h
    have hp : hd.status_validacao ≠ StatusValidacao.PENDENTE := h hd (by simp)
    have hresto := ih (k + 1) (fun it hit => h it (by simp [hit]))
    simp [indicesValidados, hp, hresto]

/-! Claim theorems. -/

/-- C3: when the classifier script parses an LLM verdict, a confirming
verdict (`correto = true`) updates the record to VALIDO with
`ncm_sugerido` equal to the original code and the fixed confirmation note
as divergence reason, and a rejecting verdict (`correto = false`) updates
the record to DIVERGENTE with the classifier's suggestion and its
explanation as divergence reason. -/
theorem thm_C3 (llm : String → String → Option RespostaAI)
    (item : ItemCadastral) (r : RespostaAI) (res : Resultado)
    (hllm : llm item.descricao item.ncm_original = some r)
    (hres : chamar_ai_script llm item.descricao item.ncm_original = some res) :
    (r.correto = true →
      aplicarResultado item res =
        { item with
            ncm_sugerido := some item.ncm_original
            status_validacao := StatusValidacao.VALIDO
            motivo_divergencia := some "Classificação correta segundo Merceologia"
            confianca_ai := some r.confianca })
    ∧ (r.correto = false →
      aplicarResultado item res =
        { item with
            ncm_sugerido := some r.ncm_sugerido
            status_validacao := StatusValidacao.DIVERGENTE
            motivo_divergencia := some r.explicacao
            confianca_ai := some r.confianca }) := by
  have hres2 : res = validar_ncm item.ncm_original r := by
    simp [chamar_ai_script, hllm] at hres
    exact hres.symm
  subst hres2
  constructor
  · intro hc; simp [validar_ncm, hc, aplicarResultado]
  · intro hc; simp [validar_ncm, hc, aplicarResultado]

/-- Witness for C3 at concrete records: a confirmed item of code
"1806.31.00" and a rejected item receiving the classifier suggestion. -/
theorem thm_C3_witness :
    aplicarResultado (itemPendente "A" "1806.31.00")
        (validar_ncm "1806.31.00" respostaCorreta) =
      { itemPendente "A" "1806.31.00" with
          ncm_sugerido := some "1806.31.00"
          status_validacao := StatusValidacao.VALIDO
          motivo_divergencia := some "Classificação correta segundo Merceologia"
          confianca_ai := some respostaCorreta.confianca }
    ∧ aplicarResultado (itemPendente "B" "1905.90.00")
        (validar_ncm "1905.90.00" respostaErrada) =
      { itemPendente "B" "1905.90.00" with
          ncm_sugerido := some respostaErrada.ncm_sugerido
          status_validacao := StatusValidacao.DIVERGENTE
          motivo_divergencia := some respostaErrada.explicacao
          confianca_ai := some respostaErrada.confianca } :=
  ⟨(thm_C3 llmConfirma (itemPendente "A" "1806.31.00") respostaCorreta
      (validar_ncm "1806.31.00" respostaCorreta) rfl rfl).1 rfl,
   (thm_C3 (fun _ _ => some respostaErrada) (itemPendente "B" "1905.90.00")
      respostaErrada (validar_ncm "1905.90.00" respostaErrada) rfl rfl).2 rfl⟩

/-- C10: on any failed statistics request the frontend `getStats` swallows
the error and returns the all-zero statistics object, indistinguishable
from a successful response describing an empty system. -/
theorem thm_C10 (e : String) :
    getStats (Except.error e) = statsZero
    ∧ getStats (Except.error e) = getStats (Except.ok statsZero)
    ∧ (getStats (Except.error e)).totalLotes = 0
    ∧ (getStats (Except.error e)).totalItens = 0
    ∧ (getStats (Except.error e)).lotesPendentes = 0
    ∧ (getStats (Except.error e)).lotesConcluidos = 0
    ∧ (getStats (Except.error e)).divergencias = 0
    ∧ (getStats (Except.error e)).beneficios = 0
    ∧ (getStats (Except.error e)).economia = 0 :=
  ⟨rfl, rfl, rfl, rfl, rfl, rfl, rfl, rfl, rfl⟩

/-- Counterexample to C8 as stated: the subprocess invocation for a
concrete record carries no timeout at all (`subprocess.run` is called
without a `timeout` argument), so the invocation is not bounded by any
configurable per-record timeout. -/
theorem ce_C8 :
    (chamar_ai_script_call "CHOCOLATE AO LEITE 200G" "1806.31.00").timeout
      = none := rfl

/-- C8 amended: every classifier invocation is an unbounded subprocess
call — the command runs `skills/validate_ncm.py`, receives the record on
stdin, and passes no timeout, so a hanging classifier hangs the
invocation; no timeout-kind error can arise. -/
theorem thm_C8 (descricao ncm : String) :
    (chamar_ai_script_call descricao ncm).timeout = none
    ∧ (chamar_ai_script_call descricao ncm).cmd
        = ["python", "skills/validate_ncm.py"]
    ∧ (chamar_ai_script_call descricao ncm).entrada
        = [("descricao", descricao), ("ncm", ncm)] :=
  ⟨rfl, rfl, rfl⟩

/-- Counterexample to C4 as stated: on an empty batch `get_status` fails
with a division by zero instead of answering percent 0, and on a batch
with 1 of 3 records processed it returns the unrounded value 100/3 while
the claim requires round(100/3) = 33. -/
theorem ce_C4 :
    get_status loteVazio = none
    ∧ (get_status loteUmDeTres).map StatusResponse.progresso
        = some ((100 : ℚ) / 3)
    ∧ round ((100 : ℚ) / 3) = 33
    ∧ ((100 : ℚ) / 3) ≠ ((33 : ℚ)) := by
  have hip : itensProcessados loteUmDeTres = 1 := rfl
  have ht : loteUmDeTres.total_itens = 3 := rfl
  have hs : loteUmDeTres.status = StatusLote.PROCESSANDO := rfl
  have hg : get_status loteUmDeTres = some
      { status := StatusLote.PROCESSANDO
        progresso := (1 : ℚ) / 3 * 100
        total_itens := 3
        itens_processados := 1 } := by
    simp [get_status, hip, ht, hs]
  refine ⟨rfl, ?_, ?_, by norm_num⟩
  · rw [hg]
    simp
    norm_num
  · rw [round_eq, Int.floor_eq_iff]
    norm_num

/-- The processed rows and the pending rows partition the batch rows. -/
theorem length_filter_nao_pendente (itens : List ItemCadastral) :
    (itens.filter
      (fun it => decide (it.status_validacao ≠ StatusValidacao.PENDENTE))).length
    + (itens.filter
      (fun it => decide (it.status_validacao = StatusValidacao.PENDENTE))).length
    = itens.length := by
  induction itens with
  | nil => rfl
  | cons hd resto ih =>
    cases hds : hd.status_validacao <;>
      simp [List.filter_cons, hds] at ih ⊢ <;> omega

/-- C4 amended: `processed` counts the records not in PENDENTE (it and the
pending records partition the batch); when the stored total is nonzero the
status query returns the exact unrounded value processed / total * 100,
and when the stored total is zero the division raises and the query
fails. -/
theorem thm_C4 (lote : Lote) :
    (lote.total_itens = 0 → get_status lote = none)
    ∧ (lote.total_itens ≠ 0 → get_status lote = some
        { status := lote.status
          progresso := (itensProcessados lote : ℚ) / (lote.total_itens : ℚ) * 100
          total_itens := lote.total_itens
          itens_processados := itensProcessados lote })
    ∧ itensProcessados lote +
        (lote.itens.filter
          (fun it => decide (it.status_validacao = StatusValidacao.PENDENTE))).length
        = lote.itens.length := by
  refine ⟨fun h => by simp [get_status, h], fun h => by simp [get_status, h],
    length_filter_nao_pendente lote.itens⟩

/-- Witness for C4 at concrete batches: the empty batch makes the query
fail and the 1-of-3 batch gets the exact unrounded ratio. -/
theorem thm_C4_witness :
    get_status loteVazio = none
    ∧ get_status loteUmDeTres = some
        { status := loteUmDeTres.status
          progresso := (itensProcessados loteUmDeTres : ℚ)
              / (loteUmDeTres.total_itens : ℚ) * 100
          total_itens := loteUmDeTres.total_itens
          itens_processados := itensProcessados loteUmDeTres } :=
  ⟨(thm_C4 loteVazio).1 rfl, (thm_C4 loteUmDeTres).2.1 (by decide)⟩

/-- Counterexample to C1 as stated: in the run where the first record is
confirmed and the second record's classification fails, the batch ends in
ERRO — the same single state produced by a run in which every
classification fails — and the failed record does not reach a terminal
state at all (it stays PENDENTE); no distinct partial-failure batch state
exists. -/
theorem ce_C1 :
    (processar_lote_task llmParcial loteDois).status = StatusLote.ERRO
    ∧ (processar_lote_task llmParcial loteDois).itens.map
        ItemCadastral.status_validacao
        = [StatusValidacao.VALIDO, StatusValidacao.PENDENTE]
    ∧ (processar_lote_task llmFalha loteDois).status = StatusLote.ERRO
    ∧ (processar_lote_task llmFalha loteDois).itens.map
        ItemCadastral.status_validacao
        = [StatusValidacao.PENDENTE, StatusValidacao.PENDENTE] := by
  refine ⟨rfl, ?_, rfl, rfl⟩
  rfl

/-- C1 amended: in every run after which all records of the batch are
terminal (VALIDO or DIVERGENTE, the only terminal record states — there
is no FAILED record state), the task transitions the batch to CONCLUIDO;
there is no partial-failure batch state, a classification failure instead
sends the whole batch to ERRO. -/
theorem thm_C1 (llm : String → String → Option RespostaAI) (lote : Lote)
    (hterm : ∀ item ∈ (processar_lote_task llm lote).itens,
      item.status_validacao ≠ StatusValidacao.PENDENTE) :
    (processar_lote_task llm lote).status = StatusLote.CONCLUIDO := by
  cases hok : (processarItens (chamar_ai_script llm) lote.itens).2 with
  | true => simp [processar_lote_task, hok]
  | false =>
    exfalso
    obtain ⟨it, hmem, hpend⟩ :=
      processarItens_false_pendente (chamar_ai_script llm) lote.itens hok
    have hmem2 : it ∈ (processar_lote_task llm lote).itens := by
      rw [processar_lote_task_itens]
      exact hmem
    exact hterm it hmem2 hpend

/-- Witness for C1 at a concrete batch: an all-confirming run leaves every
record terminal and concludes the batch. -/
theorem thm_C1_witness :
    (processar_lote_task llmConfirma loteDois).status = StatusLote.CONCLUIDO :=
  thm_C1 llmConfirma loteDois (by decide)

/-- Counterexample to C2 as stated: when the classification of the first
record fails, the batch is aborted — the failing record is not marked
with any failure state (it stays PENDENTE, with no error detail recorded)
and the remaining record is never processed; the batch itself is marked
ERRO. -/
theorem ce_C2 :
    (processar_lote_task llmFalha loteDois).status = StatusLote.ERRO
    ∧ (processar_lote_task llmFalha loteDois).itens = loteDois.itens := by
  exact ⟨rfl, rfl⟩

/-- C2 amended: whenever a classification call of the run fails, the
task-level exception handler marks the whole batch ERRO and stops, and
some record of the batch is left PENDENTE (the record failure is not
contained to the record). -/
theorem thm_C2 (llm : String → String → Option RespostaAI) (lote : Lote)
    (hfail : (processarItens (chamar_ai_script llm) lote.itens).2 = false) :
    (processar_lote_task llm lote).status = StatusLote.ERRO
    ∧ ∃ item ∈ (processar_lote_task llm lote).itens,
        item.status_validacao = StatusValidacao.PENDENTE := by
  constructor
  · simp [processar_lote_task, hfail]
  · obtain ⟨it, hmem, hpend⟩ :=
      processarItens_false_pendente (chamar_ai_script llm) lote.itens hfail
    refine ⟨it, ?_, hpend⟩
    rw [processar_lote_task_itens]
    exact hmem

/-- Witness for C2 at a concrete batch whose first classification call
fails. -/
theorem thm_C2_witness :
    (processar_lote_task llmFalha loteDois).status = StatusLote.ERRO
    ∧ ∃ item ∈ (processar_lote_task llmFalha loteDois).itens,
        item.status_validacao = StatusValidacao.PENDENTE :=
  thm_C2 llmFalha loteDois (by decide)

/-- Counterexample to C6 as stated: re-running the task on a batch that is
already in the terminal state ERRO transitions it out of that state (it
ends CONCLUIDO), so terminal batch states are not preserved, and the code
has no partial-failure state at all. -/
theorem ce_C6 :
    loteEmErro.status = StatusLote.ERRO
    ∧ (processar_lote_task llmConfirma loteEmErro).status
        = StatusLote.CONCLUIDO := by
  exact ⟨rfl, rfl⟩

/-- C6 amended: the batch status enum has exactly the four values
PENDENTE, PROCESSANDO, CONCLUIDO and ERRO (no partial-failure state), and
every task run ends the batch in CONCLUIDO or ERRO regardless of its
starting state — in particular the right-hand states are not enforced
terminal, the task happily runs on a batch already in one of them. -/
theorem thm_C6 (llm : String → String → Option RespostaAI) (lote : Lote) :
    ((processar_lote_task llm lote).status = StatusLote.CONCLUIDO
      ∨ (processar_lote_task llm lote).status = StatusLote.ERRO)
    ∧ processar_lote_statusTrace llm lote
        = [StatusLote.PROCESSANDO, (processar_lote_task llm lote).status]
    ∧ (∀ s : StatusLote,
        s = StatusLote.PENDENTE ∨ s = StatusLote.PROCESSANDO
        ∨ s = StatusLote.CONCLUIDO ∨ s = StatusLote.ERRO) := by
  refine ⟨?_, rfl, fun s => by cases s <;> simp⟩
  unfold processar_lote_task
  cases hok : (processarItens (chamar_ai_script llm) lote.itens).2 <;> simp [hok]

/-- C7: the original classification code of every submitted line is stored
byte-for-byte in `ncm_original`, is still byte-for-byte identical after
the processing task ran, and is returned unchanged by the item listing. -/
theorem thm_C7 (filename : String) (linhas : List Linha)
    (llm : String → String → Option RespostaAI) (i : Nat) (l : Linha)
    (hl : linhas[i]? = some l) :
    ((criarLote filename linhas).itens[i]?).map ItemCadastral.ncm_original
      = some l.ncm
    ∧ ((processar_lote_task llm (criarLote filename linhas)).itens[i]?).map
        ItemCadastral.ncm_original = some l.ncm
    ∧ ((listar_itens (processar_lote_task llm (criarLote filename linhas))
        false)[i]?).map ItemCadastral.ncm_original = some l.ncm := by
  have h1 : ((criarLote filename linhas).itens[i]?).map
      ItemCadastral.ncm_original = some l.ncm := by
    simp [criarLote, novoLote, hl, novoItem]
  have h2 : ((processar_lote_task llm (criarLote filename linhas)).itens[i]?).map
      ItemCadastral.ncm_original = some l.ncm := by
    rw [processar_lote_task_itens,
      processarItens_preserva_ncm (chamar_ai_script llm)
        (criarLote filename linhas).itens i]
    exact h1
  exact ⟨h1, h2, by simpa [listar_itens] using h2⟩

/-- Witness for C7: the code "0102.31.00" survives creation, processing
and listing without leading-zero loss or any coercion. -/
theorem thm_C7_witness :
    ((criarLote "produtos.csv" [⟨"B", "0102.31.00"⟩]).itens[0]?).map
        ItemCadastral.ncm_original = some "0102.31.00"
    ∧ ((processar_lote_task llmConfirma
        (criarLote "produtos.csv" [⟨"B", "0102.31.00"⟩])).itens[0]?).map
        ItemCadastral.ncm_original = some "0102.31.00"
    ∧ ((listar_itens (processar_lote_task llmConfirma
        (criarLote "produtos.csv" [⟨"B", "0102.31.00"⟩])) false)[0]?).map
        ItemCadastral.ncm_original = some "0102.31.00" :=
  thm_C7 "produtos.csv" [⟨"B", "0102.31.00"⟩] llmConfirma 0
    ⟨"B", "0102.31.00"⟩ rfl

/-- C9: on every accepted submission the effect trace of the upload route
contains exactly one enqueue, the batch state the enqueue refers to was
committed strictly before it, and that state holds the batch with all of
its records persisted in state PENDENTE. -/
theorem thm_C9 (filename : String) (linhas : List Linha) :
    ((upload_csv filename linhas).filter isEnqueue).length = 1
    ∧ ∀ (i : Nat) (db : Lote),
        (upload_csv filename linhas)[i]? = some (Evento.enqueue db) →
        (∃ j : Nat, j < i
          ∧ (upload_csv filename linhas)[j]? = some (Evento.commit db))
        ∧ db.itens.length = linhas.length
        ∧ db.total_itens = linhas.length
        ∧ ∀ item ∈ db.itens,
            item.status_validacao = StatusValidacao.PENDENTE := by
  constructor
  · simp [upload_csv, isEnqueue]
  · intro i db hi
    match i with
    | 0 => simp [upload_csv] at hi
    | 1 => simp [upload_csv] at hi
    | 2 =>
      simp [upload_csv] at hi
      subst hi
      refine ⟨⟨1, by omega, by simp [upload_csv]⟩, ?_, ?_, ?_⟩
      · simp [criarLote, novoLote]
      · simp [criarLote, novoLote]
      · intro item hmem
        simp [criarLote, novoLote] at hmem
        obtain ⟨l, _, rfl⟩ := hmem
        rfl
    | (n + 3) => simp [upload_csv] at hi

/-- Witness for C9 on a concrete one-line submission. -/
theorem thm_C9_witness :
    ((upload_csv "produtos.csv" [⟨"A", "0102.31.00"⟩]).filter isEnqueue).length = 1
    ∧ ((∃ j : Nat, j < 2
          ∧ (upload_csv "produtos.csv" [⟨"A", "0102.31.00"⟩])[j]? =
            some (Evento.commit (criarLote "produtos.csv" [⟨"A", "0102.31.00"⟩])))
       ∧ (criarLote "produtos.csv" [⟨"A", "0102.31.00"⟩]).itens.length = 1
       ∧ (criarLote "produtos.csv" [⟨"A", "0102.31.00"⟩]).total_itens = 1
       ∧ ∀ item ∈ (criarLote "produtos.csv" [⟨"A", "0102.31.00"⟩]).itens,
           item.status_validacao = StatusValidacao.PENDENTE) :=
  ⟨(thm_C9 "produtos.csv" [⟨"A", "0102.31.00"⟩]).1,
   (thm_C9 "produtos.csv" [⟨"A", "0102.31.00"⟩]).2 2
     (criarLote "produtos.csv" [⟨"A", "0102.31.00"⟩]) rfl⟩

/-- C5: the task is idempotent — within one run no item position is sent
to the classifier twice; an item already terminal is left in place and
its position is never sent to the classifier; and after a successful run,
running the task again sends nothing to the classifier and reproduces the
same final batch state. -/
theorem thm_C5 (llm : String → String → Option RespostaAI) (lote : Lote)
    (hsucc : (processarItens (chamar_ai_script llm) lote.itens).2 = true) :
    (indicesValidados (chamar_ai_script llm) 0 lote.itens).Nodup
    ∧ (∀ i item, lote.itens[i]? = some item →
        item.status_validacao ≠ StatusValidacao.PENDENTE →
        (processar_lote_task llm lote).itens[i]? = some item
        ∧ i ∉ indicesValidados (chamar_ai_script llm) 0 lote.itens)
    ∧ processar_lote_task llm (processar_lote_task llm lote)
        = processar_lote_task llm lote
    ∧ indicesValidados (chamar_ai_script llm) 0
        (processar_lote_task llm lote).itens = [] := by
  have hterm : ∀ item ∈ (processarItens (chamar_ai_script llm) lote.itens).1,
      item.status_validacao ≠ StatusValidacao.PENDENTE :=
    processarItens_true_terminais llm lote.itens hsucc
  have hitens := processar_lote_task_itens llm lote
  refine ⟨indicesValidados_nodup _ _ _, ?_, ?_, ?_⟩
  · intro i item hg hnp
    refine ⟨?_, ?_⟩
    · rw [hitens]
      exact processarItens_preserva_terminais _ lote.itens i item hg hnp
    · intro hmem
      obtain ⟨it, hg2, hpend⟩ :=
        indicesValidados_pendente (chamar_ai_script llm) lote.itens 0 i hmem
      rw [Nat.sub_zero, hg] at hg2
      exact hnp (by injection hg2 with h; rw [h]; exact hpend)
  · have h1 : processar_lote_task llm lote =
        { lote with
            status := StatusLote.CONCLUIDO
            itens := (processarItens (chamar_ai_script llm) lote.itens).1 } := by
      simp [processar_lote_task, hsucc]
    rw [h1]
    simp [processar_lote_task,
      processarItens_terminais_id (chamar_ai_script llm) _ hterm]
  · rw [hitens]
    exact indicesValidados_terminais (chamar_ai_script llm) _ 0 hterm

/-- Witness for C5 on a concrete batch holding one already-terminal item
and one pending item, processed by an all-confirming classifier. -/
theorem thm_C5_witness :
    (indicesValidados (chamar_ai_script llmConfirma) 0 loteMisto.itens).Nodup
    ∧ ((processar_lote_task llmConfirma loteMisto).itens[0]? = some itemValido
        ∧ 0 ∉ indicesValidados (chamar_ai_script llmConfirma) 0 loteMisto.itens)
    ∧ processar_lote_task llmConfirma (processar_lote_task llmConfirma loteMisto)
        = processar_lote_task llmConfirma loteMisto
    ∧ indicesValidados (chamar_ai_script llmConfirma) 0
        (processar_lote_task llmConfirma loteMisto).itens = [] :=
  have h := thm_C5 llmConfirma loteMisto (by decide)
  ⟨h.1, h.2.1 0 itemValido rfl (by decide), h.2.2.1, h.2.2.2⟩

end FastMission
